import Mathlib

/-!
Verification of the arc-orm SQL construction layer.

The Go sources are shallowly embedded: every `ToSQL` implementation of the
`Expr` interface becomes a case of `ArcOrm.toSQL` over the expression AST,
the statement builders become Lean structures with the same accumulate /
render split, and the reflection-driven binding layer is embedded over
explicit field-descriptor lists.  Each definition cites the Go file and
lines it was translated from.
-/

namespace ArcOrm

/-- Runtime values that travel in a statement's positional argument list.
The Go code boxes them as `interface{}`; the fixed set of literal kinds is
string / int64 / int32 / float64 / bool / time (sql literals, part_001).
Float and time payloads are opaque: the core never computes with them. -/
inductive Val where
  | vStr (s : String)
  | vInt (i : Int)
  | vInt32 (i : Int)
  | vFloat (bits : Nat)
  | vBool (b : Bool)
  | vTime (t : Nat)
  deriving DecidableEq, Repr

/-- Expression AST: one constructor per `Expr` implementation in the Go
field/sql packages.

* `strField`   — StringField (part_009:20-22), always table-qualified
* `int64Field` — Int64Field (field/int64.go:203-209), drops the qualifier
  when the table name is empty
* `float64Field` — Float64Field (part_011:22-28), drops the qualifier
  when the table name is empty, like Int64Field
* `lit`        — sql.String/Int64/Int32/Float64/Bool/Time (part_001:5-50)
* `comparison` — comparison (field/field.go:26-32)
* `likeE`      — like (field/field.go:40-46)
* `noOp`       — noOp (part_009:127-132)
* `andE`/`orE` — and/or (field/field.go:129-135)
* `parenE`     — paren (field/field.go:61-67)
* `math`       — mathOperation (field/field.go:115-127); built only with two
  or more operands, via `mathOpExprs`
* `inCond`     — inCondition (part_007:15-29)
* `fieldCmp`   — fieldComparison (part_007:58-68)
* `nullCond`   — nullCondition (part_007:76-85)
* `betweenE`   — between (part_007:94-100)
* `funcCall`   — sqlFunc (sql/helpers.go:55-69)
* `aliasE`     — aliasedExpr (sql/helpers.go:93-99)
* `fieldOpE`   — fieldOperation (field/field.go:174-176)
* `raw`        — rawCondition (orm/condition.go:72-79) and the test helper
  testFieldExpression (part_017:241-243)
* `failing`    — a user-supplied `Expr` whose `ToSQL` returns an error,
  which the open Go interface permits -/
inductive SqlExpr where
  | strField (table name : String)
  | int64Field (table name : String)
  | float64Field (table name : String)
  | lit (v : Val)
  | comparison (f : SqlExpr) (op : String) (v : Val)
  | likeE (f : SqlExpr) (v : String)
  | noOp
  | andE (cs : List SqlExpr)
  | orE (cs : List SqlExpr)
  | parenE (e : SqlExpr)
  | math (op : String) (es : List SqlExpr)
  | inCond (f : SqlExpr) (vs : List Val)
  | fieldCmp (l : SqlExpr) (op : String) (r : SqlExpr)
  | nullCond (f : SqlExpr) (isNull : Bool)
  | betweenE (f : SqlExpr) (lo hi : Val)
  | funcCall (name : String) (args : List SqlExpr)
  | aliasE (e : SqlExpr) (a : String)
  | fieldOpE (table name op : String) (v : Val)
  | raw (sql : String) (params : List Val)
  | failing (msg : String)
  deriving Repr

/-- Result of a render: the fragment and the positional args, or an error. -/
abbrev Rendered := String × List Val

/-- joinCodnitions (field/field.go:137-164; the misspelling is the source's).
Operates on the already-rendered conditions: entries with an empty fragment
are dropped (their args with them); zero kept renders as a no-op, one kept
is returned verbatim, two or more are parenthesized and operator-joined. -/
def joinCodnitions (rs : List Rendered) (op : String) : Rendered :=
  let kept := rs.filter fun r => r.1 ≠ ""
  let ps := (kept.map Prod.snd).flatten
  match kept.map Prod.fst with
  | [] => ("", [])
  | [s] => (s, ps)
  | parts => ("(" ++ String.intercalate (" " ++ op ++ " ") parts ++ ")", ps)

mutual

/-- Expr.ToSQL, one case per implementation (see `SqlExpr`). In the `math`
case the Go loop (field/field.go:118-125) declares `sql, params, err :=
expr.ToSQL()`, shadowing the outer `params` slice; `params = append(params,
params...)` therefore appends the inner slice to itself and the outer
slice — the one returned on line 126 — stays empty. The embedding mirrors
that: the operand fragments are joined but no operand args are returned. -/
def toSQL : SqlExpr → Except String Rendered
  | .strField t n => .ok ("`" ++ t ++ "`.`" ++ n ++ "`", [])
  | .int64Field t n =>
      if t = "" then .ok ("`" ++ n ++ "`", [])
      else .ok ("`" ++ t ++ "`.`" ++ n ++ "`", [])
  | .float64Field t n =>
      if t = "" then .ok ("`" ++ n ++ "`", [])
      else .ok ("`" ++ t ++ "`.`" ++ n ++ "`", [])
  | .lit v => .ok ("?", [v])
  | .comparison f op v => do
      let (s, ps) ← toSQL f
      .ok (s ++ " " ++ op ++ " ?", ps ++ [v])
  | .likeE f v => do
      let (s, ps) ← toSQL f
      .ok (s ++ " LIKE ?", ps ++ [.vStr v])
  | .noOp => .ok ("", [])
  | .andE cs => do
      let rs ← renderAll cs
      .ok (joinCodnitions rs "AND")
  | .orE cs => do
      let rs ← renderAll cs
      .ok (joinCodnitions rs "OR")
  | .parenE e => do
      let (s, ps) ← toSQL e
      .ok ("(" ++ s ++ ")", ps)
  | .math op es => do
      let rs ← renderAll es
      .ok (String.intercalate (" " ++ op ++ " ") (rs.map Prod.fst), [])
  | .inCond f vs =>
      if vs.length = 0 then .ok ("", [])
      else do
        let (s, ps) ← toSQL f
        .ok (s ++ " IN (" ++ String.intercalate ", " (List.replicate vs.length "?") ++ ")",
             ps ++ vs)
  | .fieldCmp l op r => do
      let (ls, lp) ← toSQL l
      let (rs, rp) ← toSQL r
      .ok (ls ++ " " ++ op ++ " " ++ rs, lp ++ rp)
  | .nullCond f isNull => do
      let (s, ps) ← toSQL f
      if isNull then .ok (s ++ " IS NULL", ps) else .ok (s ++ " IS NOT NULL", ps)
  | .betweenE f lo hi => do
      let (s, ps) ← toSQL f
      .ok (s ++ " BETWEEN ? AND ?", ps ++ [lo, hi])
  | .funcCall name args => do
      let rs ← renderArgsIdx 0 args
      .ok (name ++ "(" ++ String.intercalate ", " (rs.map Prod.fst) ++ ")",
           (rs.map Prod.snd).flatten)
  | .aliasE e a => do
      let (s, ps) ← toSQL e
      .ok (s ++ " AS `" ++ a ++ "`", ps)
  | .fieldOpE t n op v => .ok ("`" ++ t ++ "`.`" ++ n ++ "`" ++ op ++ "?", [v])
  | .raw s ps => .ok (s, ps)
  | .failing msg => .error msg

/-- Renders each expression of a list in order, stopping at the first
error, as every clause-iterating loop in the Go sources does. -/
def renderAll : List SqlExpr → Except String (List Rendered)
  | [] => .ok []
  | e :: es => do
      let r ← toSQL e
      let rs ← renderAll es
      .ok (r :: rs)

/-- Argument loop of sqlFunc.ToSQL (sql/helpers.go:59-66): a failing
argument aborts with the error wrapped as `arg[i]: ...`. -/
def renderArgsIdx : Nat → List SqlExpr → Except String (List Rendered)
  | _, [] => .ok []
  | i, e :: es =>
      match toSQL e with
      | .error msg => .error ("arg[" ++ toString i ++ "]: " ++ msg)
      | .ok r => do
          let rs ← renderArgsIdx (i + 1) es
          .ok (r :: rs)

end

/-- mathOpExprs (field/field.go:102-113): zero operands is a no-op, a single
operand is returned verbatim, two or more become a mathOperation. -/
def mathOpExprs (op : String) (es : List SqlExpr) : SqlExpr :=
  match es with
  | [] => .noOp
  | [e] => e
  | _ => .math op es

/-- field.Add (field/field.go:86-88). -/
def fieldAdd (es : List SqlExpr) : SqlExpr := mathOpExprs "+" es

/-- Number of `?` placeholders in a fragment. -/
def countQ (s : String) : Nat := s.toList.count '?'

/-! ## Typed field constructors

The Go field structs carry `FieldName`/`TableName`; their condition
constructors build the corresponding `Expr` values. -/

/-- StringField (part_009:3-7). -/
structure StringField where
  fieldName : String
  tableName : String
  deriving DecidableEq, Repr

/-- Int64Field (field/int64.go:186-190). -/
structure Int64Field where
  fieldName : String
  tableName : String
  deriving DecidableEq, Repr

/-- Float64Field (part_011). -/
structure Float64Field where
  fieldName : String
  tableName : String
  deriving DecidableEq, Repr

/-- Int64Field.Eq (field/int64.go:212-218). -/
def Int64Field.eq (f : Int64Field) (value : Int) : SqlExpr :=
  .comparison (.int64Field f.tableName f.fieldName) "=" (.vInt value)

/-- StringField.Contains (part_009:164-172): empty value degrades to a
no-op, otherwise LIKE with the value wrapped in both wildcards. -/
def StringField.containsV (f : StringField) (value : String) : SqlExpr :=
  if value = "" then .noOp
  else .likeE (.strField f.tableName f.fieldName) ("%" ++ value ++ "%")

/-- StringField.StartsWith (part_009:175-183). -/
def StringField.startsWithV (f : StringField) (value : String) : SqlExpr :=
  if value = "" then .noOp
  else .likeE (.strField f.tableName f.fieldName) (value ++ "%")

/-- StringField.EndsWith (part_009:186-194). -/
def StringField.endsWithV (f : StringField) (value : String) : SqlExpr :=
  if value = "" then .noOp
  else .likeE (.strField f.tableName f.fieldName) ("%" ++ value)

/-- StringField.In (part_009:134-146). The Go function panics on an empty
value list; `none` models the panic, `some` the returned condition. -/
def StringField.inStrict (f : StringField) (values : List String) : Option SqlExpr :=
  if values = [] then none
  else some (.inCond (.strField f.tableName f.fieldName) (values.map Val.vStr))

/-- StringField.InOrEmpty (part_009:148-153): empty degrades to a no-op. -/
def StringField.inOrEmpty (f : StringField) (values : List String) : Option SqlExpr :=
  if values = [] then some .noOp
  else f.inStrict values

/-- Fragment rendered by Float64Field.ToSQL (part_011:22-28): the table
qualifier is dropped when the table name is empty. -/
def Float64Field.fieldSQL (f : Float64Field) : String :=
  if f.tableName = "" then "`" ++ f.fieldName ++ "`"
  else "`" ++ f.tableName ++ "`.`" ++ f.fieldName ++ "`"

/-- Float64Field.In (part_011:148-160); panics (`none`) on empty values. -/
def Float64Field.inStrict (f : Float64Field) (values : List Nat) : Option SqlExpr :=
  if values = [] then none
  else some (.inCond (.float64Field f.tableName f.fieldName) (values.map Val.vFloat))

/-- Float64Field.InOrEmpty (part_011:162-167). -/
def Float64Field.inOrEmpty (f : Float64Field) (values : List Nat) : Option SqlExpr :=
  if values = [] then some .noOp
  else f.inStrict values

/-! ## Delete builder (part_003) -/

/-- DeleteBuilder (part_003:19-24). -/
structure DeleteBuilder where
  tableName : String
  conditions : List SqlExpr
  limit : Int
  hasLimit : Bool

/-- DeleteFrom (part_003:12-16). -/
def DeleteFrom (tableName : String) : DeleteBuilder :=
  { tableName := tableName, conditions := [], limit := 0, hasLimit := false }

/-- DeleteBuilder.Where (part_003:27-30). -/
def DeleteBuilder.whereC (b : DeleteBuilder) (conds : List SqlExpr) : DeleteBuilder :=
  { b with conditions := b.conditions ++ conds }

/-- DeleteBuilder.Limit (part_003:33-37). -/
def DeleteBuilder.limitN (b : DeleteBuilder) (n : Int) : DeleteBuilder :=
  { b with limit := n, hasLimit := true }

/-- WHERE loop of DeleteBuilder.SQL (part_003:56-70) over the rendered
conditions, carrying the entry index: the `" AND "` separator is written
whenever the index is positive, before the empty-fragment check, so a
skipped no-op still leaves its separator behind; args are appended only
for entries whose fragment is non-empty. -/
def deleteWhereAux : Nat → List Rendered → Rendered
  | _, [] => ("", [])
  | i, (s, ps) :: rest =>
      let sep := if i > 0 then " AND " else ""
      let (restS, restP) := deleteWhereAux (i + 1) rest
      if s = "" then (sep ++ restS, restP)
      else (sep ++ s ++ restS, ps ++ restP)

/-- DeleteBuilder.SQL (part_003:40-79). -/
def DeleteBuilder.sql (b : DeleteBuilder) : Except String Rendered :=
  if b.tableName = "" then .error ("table name is required")
  else
    match renderAll b.conditions with
    | .error e => .error ("failed to build where condition: " ++ e)
    | .ok rs =>
        let (whereS, ps) :=
          if b.conditions.length > 0 then
            let (joined, ps) := deleteWhereAux 0 rs
            (" WHERE " ++ joined, ps)
          else ("", [])
        .ok ("DELETE FROM `" ++ b.tableName ++ "`" ++ whereS ++
              (if b.hasLimit then " LIMIT " ++ toString b.limit else ""), ps)

/-! ## Insert builder (part_006) -/

/-- One staged SET entry of the insert builder: the field name and the
already-rendered value fragment and args (updateExpr, part_006:37-41). -/
structure InsertSetEntry where
  fieldName : String
  exprSQL : String
  params : List Val
  deriving DecidableEq, Repr

/-- InsertIntoBuilder (part_006:20-24). -/
structure InsertIntoBuilder where
  tableName : String
  updates : List InsertSetEntry
  err : Option String

/-- InsertInto (part_006:13-17). -/
def InsertInto (tableName : String) : InsertIntoBuilder :=
  { tableName := tableName, updates := [], err := none }

/-- InsertIntoBuilder.Set (part_006:28-43): skipped entirely once an error
is staged; otherwise the value expression is rendered immediately, a
failure is staged wrapped as `SET field '<name>': ...`, and a success is
appended as a pre-rendered entry. -/
def InsertIntoBuilder.set (b : InsertIntoBuilder) (fieldName : String)
    (value : SqlExpr) : InsertIntoBuilder :=
  match b.err with
  | some _ => b
  | none =>
      match toSQL value with
      | .error e => { b with err := some ("SET field '" ++ fieldName ++ "': " ++ e) }
      | .ok (s, ps) =>
          { b with updates := b.updates ++ [⟨fieldName, s, ps⟩] }

/-- InsertIntoBuilder.SQL (part_006:46-79): the staged error is returned
first, before the table-name and empty-set-list checks. -/
def InsertIntoBuilder.sql (b : InsertIntoBuilder) : Except String Rendered :=
  match b.err with
  | some e => .error e
  | none =>
      if b.tableName = "" then .error ("table name is required")
      else if b.updates = [] then .error ("no columns specified")
      else
        .ok ("INSERT INTO `" ++ b.tableName ++ "` SET " ++
              String.intercalate ", "
                (b.updates.map fun u => "`" ++ u.fieldName ++ "`=" ++ u.exprSQL),
             (b.updates.map InsertSetEntry.params).flatten)

/-! ## Update builder (sql/update.go, `Expression` based) -/

/-- The `Expression` interface (part_013:102-105): rendered by
ToExpressionSQL to a fragment without the trailing placeholder plus the
single value. Its two implementations are the sql literals (part_001
second listing: empty fragment) and fieldOperation (part_013:114-116). -/
inductive Expression where
  | litE (v : Val)
  | fieldOp (table name op : String) (v : Val)
  deriving DecidableEq, Repr

/-- ToExpressionSQL (part_001 second listing; part_013:114-116). -/
def Expression.toExpressionSQL : Expression → String × Val
  | .litE v => ("", v)
  | .fieldOp t n op v => ("`" ++ t ++ "`.`" ++ n ++ "`" ++ op, v)

/-- Int64Field.Increment (field/int64.go:119-125): a fieldOperation with
operator `+` and the delta as its value, rendered through
ToExpressionSQL (part_013:114-116) by the Update builder's SET clause. -/
def Int64Field.increment (f : Int64Field) (value : Int) : Expression :=
  .fieldOp f.tableName f.fieldName "+" (.vInt value)

/-- A SET entry of the update builder (updateExpr, sql/update.go:26-30):
field name, `"=" ++ exprSQL`, and the value. -/
structure UpdateSetEntry where
  fieldName : String
  exprS : String
  value : Val
  deriving DecidableEq, Repr

/-- UpdateBuilder (sql/update.go:19-23). -/
structure UpdateBuilder where
  tableName : String
  updates : List UpdateSetEntry
  conditions : List SqlExpr

/-- Update (sql/update.go:12-16). -/
def Update (tableName : String) : UpdateBuilder :=
  { tableName := tableName, updates := [], conditions := [] }

/-- UpdateBuilder.Set (sql/update.go:34-42): evaluates ToExpressionSQL
immediately and appends the entry. -/
def UpdateBuilder.set (b : UpdateBuilder) (fieldName : String)
    (value : Expression) : UpdateBuilder :=
  let (exprSQL, v) := value.toExpressionSQL
  { b with updates := b.updates ++ [⟨fieldName, "=" ++ exprSQL, v⟩] }

/-- UpdateBuilder.Where (sql/update.go:45-48). -/
def UpdateBuilder.whereC (b : UpdateBuilder) (conds : List SqlExpr) : UpdateBuilder :=
  { b with conditions := b.conditions ++ conds }

/-- WHERE loop of UpdateBuilder.SQL (sql/update.go:81-96): conditions are
joined with `" AND "` by entry index; unlike Delete there is no
empty-fragment check, every fragment and every arg list is appended. -/
def updateWhereAux : Nat → List Rendered → Rendered
  | _, [] => ("", [])
  | i, (s, ps) :: rest =>
      let sep := if i > 0 then " AND " else ""
      let (restS, restP) := updateWhereAux (i + 1) rest
      (sep ++ s ++ restS, ps ++ restP)

/-- UpdateBuilder.SQL (sql/update.go:51-99): table then non-empty SET list
are checked; each SET entry renders as `` `name`=<expr>? `` contributing
its value, then the WHERE clause. -/
def UpdateBuilder.sql (b : UpdateBuilder) : Except String Rendered :=
  if b.tableName = "" then .error ("table name is required")
  else if b.updates = [] then .error ("at least one SET expression is required")
  else
    match renderAll b.conditions with
    | .error e => .error ("failed to build where condition: " ++ e)
    | .ok rs =>
        let setS := String.intercalate ", "
          (b.updates.map fun u => "`" ++ u.fieldName ++ "`" ++ u.exprS ++ "?")
        let setPs := b.updates.map UpdateSetEntry.value
        let (whereS, wherePs) :=
          if b.conditions.length > 0 then
            let (joined, ps) := updateWhereAux 0 rs
            (" WHERE " ++ joined, ps)
          else ("", [])
        .ok ("UPDATE `" ++ b.tableName ++ "` SET " ++ setS ++ whereS,
             setPs ++ wherePs)

/-! ## ORM layer (orm package) -/

/-- Character-level worker for `camelToSnake`. -/
def camelToSnakeAux : List Char → Bool → List Char
  | [], _ => []
  | c :: cs, isFirst =>
      if c.isUpper then
        (if isFirst then [c.toLower] else ['_', c.toLower]) ++ camelToSnakeAux cs false
      else c :: camelToSnakeAux cs false

/-- Modelled from the spec: `strcase.CamelToSnake` of the external
`less-gen` dependency, the name→snake_case mapping the spec calls
"converted name→snake_case" — each uppercase letter is lowercased and,
except at the start, preceded by an underscore (`UpdateTime` ↦
`update_time`). -/
def camelToSnake (s : String) : String := ⟨camelToSnakeAux s.toList true⟩

/-- An exported field of the optional/partial model instance: its Go name
and `some v` / `none` for a non-nil / nil pointer. -/
structure OptField where
  goName : String
  value : Option Val
  deriving DecidableEq, Repr

/-- Field-collection loop of ORM.update (orm/update.go:79-153): nil
pointer fields are skipped, the Go name is snake_cased, names without a
table field are skipped, and the runtime value becomes a typed sql
literal passed to builder.Set. -/
def collectUpdates (tableFields : List String) (fields : List OptField) :
    List (String × Expression) :=
  fields.filterMap fun f =>
    match f.value with
    | none => none
    | some v =>
        let n := camelToSnake f.goName
        if tableFields.contains n then some (n, Expression.litE v) else none

/-- Observable outcome of an ORM write operation: an error returned to the
caller before any engine call, a Go runtime panic, or exactly one engine
Exec call with the rendered statement. -/
inductive UpdateOutcome where
  | errOut (msg : String)
  | panicked
  | execCall (q : String) (args : List Val)
  deriving DecidableEq, Repr

/-- Successive builder.Set calls for a list of collected entries. -/
def UpdateBuilder.setMany (b : UpdateBuilder) :
    List (String × Expression) → UpdateBuilder
  | [] => b
  | (n, e) :: rest => (b.set n e).setMany rest

/-- Final stage of ORM.update (orm/update.go:151-180): the collected SET
entries are handed to sql.Update via builder.Set in order, the conditions
via builder.Where, and the rendered statement goes to engine Exec. -/
def runUpdateBuilder (tableName : String) (sets : List (String × Expression))
    (conds : List SqlExpr) : UpdateOutcome :=
  match (((Update tableName).setMany sets).whereC conds).sql with
  | .error e => .errOut ("failed to build update SQL: " ++ e)
  | .ok (q, args) => .execCall q args

/-- ORM.update (orm/update.go:49-181). Nil data and empty condition lists
error first; then the non-nil fields are collected; the `UpdateTime`
flags are taken from the data fields (orm/update.go:89-98); the
"nothing to update" check (line 156) runs on the collected fields BEFORE
the UpdateTime auto-fill (line 161), which appends `update_time = now`
last. A nil `update_time` table lookup would make builder.Set hold a nil
field and panic inside SQL() — modelled as `panicked`. -/
def ormUpdate (tableName : String) (tableFields : List String)
    (conds : List SqlExpr) (data : Option (List OptField)) (now : Val) :
    UpdateOutcome :=
  match data with
  | none => .errOut ("requires data, got nil")
  | some fields =>
      if conds.isEmpty then .errOut ("requires conditions")
      else
        let collected := collectUpdates tableFields fields
        let hasUpdateTimeField := fields.any fun f => f.goName == "UpdateTime"
        let shouldAddUpdateTime :=
          fields.any fun f => f.goName == "UpdateTime" && f.value.isNone
        if collected.isEmpty then .errOut ("nothing to update")
        else if hasUpdateTimeField && shouldAddUpdateTime then
          if tableFields.contains "update_time" then
            runUpdateBuilder tableName
              (collected ++ [("update_time", Expression.litE now)]) conds
          else .panicked
        else runUpdateBuilder tableName collected conds

/-- ORM.toIDCondition (orm/condition.go:49-70): id 0 is rejected first,
then the table must carry an `id` field, and the condition is built from
`Int64Field{FieldName: "id"}` — with the zero-value (empty) table name,
so it renders unqualified. -/
def toIDCondition (tableFields : List String) (id : Int) : Except String SqlExpr :=
  if id = 0 then .error ("requires id, got 0")
  else if tableFields.contains "id" then
    .ok (Int64Field.eq ⟨"id", ""⟩ id)
  else .error ("missing id field")

/-- ORM.UpdateByID (orm/update.go:27-34): a toIDCondition failure is
returned, wrapped, before ORM.update runs (and hence before any engine
call). -/
def UpdateByID (tableName : String) (tableFields : List String) (id : Int)
    (data : Option (List OptField)) (now : Val) : UpdateOutcome :=
  match toIDCondition tableFields id with
  | .error e => .errOut ("failed to convert id to condition: " ++ e)
  | .ok c => ormUpdate tableName tableFields [c] data now

/-- ORM.DeleteByID (part_018:12-19) with ORM.deleteBy (part_018:44-65):
an id-condition failure is returned, wrapped, before the Delete builder
renders and before the engine Exec; `ok` carries the statement handed to
the engine. -/
def DeleteByID (tableName : String) (tableFields : List String) (id : Int) :
    Except String Rendered :=
  match toIDCondition tableFields id with
  | .error e => .error ("failed to convert id to condition: " ++ e)
  | .ok c =>
      match ((DeleteFrom tableName).whereC [c]).sql with
      | .error e => .error ("sql: " ++ e)
      | .ok r => .ok r

/-- ORM.GetByID (orm/query.go:28-34): an id-condition failure is
returned, wrapped, before ORM.get builds the select and queries the
engine; `ok` carries the condition handed to the select path. -/
def GetByID (tableFields : List String) (id : Int) : Except String SqlExpr :=
  match toIDCondition tableFields id with
  | .error e => .error ("failed to convert id to condition: " ++ e)
  | .ok c => .ok c

/-! ## Binding validation (part_016) -/

/-- Go types, as far as the validation rules inspect them. -/
inductive GoType where
  | tString
  | tInt64
  | tInt32
  | tFloat64
  | tBool
  | tTime
  | ptr (t : GoType)
  deriving DecidableEq, Repr

/-- A struct field as seen by reflection: name, type, exported flag. -/
structure GoStructField where
  name : String
  ty : GoType
  exported : Bool
  deriving DecidableEq, Repr

/-- modelFieldMap lookup of validateOptionalType (part_016:1504-1510,
1537): the map holds the exported model fields keyed by Go name. -/
def lookupModelField (modelFields : List GoStructField) (n : String) :
    Option GoStructField :=
  modelFields.find? fun f => f.exported && f.name == n

/-- CreateTime/UpdateTime check of validateOptionalType
(part_016:1521-1534): such a field must be a pointer to the time type. -/
def optTimeCheck (f : GoStructField) : Option String :=
  if f.name = "CreateTime" ∨ f.name = "UpdateTime" then
    match f.ty with
    | .ptr inner =>
        if inner = .tTime then none
        else some ("optional field " ++ f.name ++ " must be a *time.Time")
    | _ => some ("optional field " ++ f.name ++ " must be a pointer")
  else none

/-- Per-field loop of validateOptionalType (part_016:1512-1554): each
exported optional field must pass the time check, exist among the model's
exported fields, be a pointer, and point at exactly the model field's
type. Unexported fields are skipped. The loop never inspects model fields
that lack an optional counterpart. -/
def validateOptFields (modelFields : List GoStructField) :
    List GoStructField → Except String Unit
  | [] => .ok ()
  | f :: rest =>
      if f.exported then
        match optTimeCheck f with
        | some e => .error e
        | none =>
            match lookupModelField modelFields f.name with
            | none => .error ("optional field " ++ f.name ++ " not found in model")
            | some mf =>
                match f.ty with
                | .ptr inner =>
                    if inner = mf.ty then validateOptFields modelFields rest
                    else .error ("optional field " ++ f.name ++
                          " pointer type doesn't match model field type")
                | _ => .error ("optional field " ++ f.name ++ " must be a pointer")
      else validateOptFields modelFields rest

/-- validateOptionalType (part_016:1493-1557) for two struct types given
by their field lists. -/
def validateOptionalType (modelFields optFields : List GoStructField) :
    Except String Unit :=
  validateOptFields modelFields optFields

/-! ## Helper lemmas -/

theorem exc_bind_ok {α β : Type} (x : α) (f : α → Except String β) :
    (Except.ok x : Except String α) >>= f = f x := rfl

theorem countQ_append (a b : String) : countQ (a ++ b) = countQ a + countQ b := by
  simp [countQ, String.toList, List.count_append]

/-- Placeholder count of the Go `strings.Join(placeholders, ", ")` worker
over the remaining placeholders. -/
theorem countQ_intercalate_go (n : Nat) (acc : String) :
    countQ (String.intercalate.go acc ", " (List.replicate n "?")) = countQ acc + n := by
  induction n generalizing acc with
  | zero => simp [String.intercalate.go]
  | succ m ih =>
      rw [List.replicate_succ, String.intercalate.go, ih, countQ_append, countQ_append]
      simp [countQ]
      omega

theorem countQ_in_placeholders (n : Nat) :
    countQ (String.intercalate ", " (List.replicate (n + 1) "?")) = n + 1 := by
  rw [List.replicate_succ, String.intercalate, countQ_intercalate_go]
  simp [countQ]
  omega

/-! ## Claims -/

/-- C1: the spec's central invariant — every rendered fragment carries as
many `?` placeholders as there are entries in its argument list, for every
composite, in particular for add/sub/mul/div chains with arg-carrying
operands — is violated by mathOperation.ToSQL (field/field.go:115-127):
`field.Add(sql.Int64(1), sql.Int64(2))` renders the fragment `? + ?` with
two placeholders yet returns an empty argument list, because the Go range
body's short variable declaration shadows the accumulating `params` slice
and the function returns the never-appended outer slice. -/
theorem C1_math_drops_operand_args :
    toSQL (fieldAdd [.lit (.vInt 1), .lit (.vInt 2)]) = .ok ("? + ?", []) ∧
    countQ "? + ?" = 2 ∧ ([] : List Val).length = 0 := by
  exact ⟨rfl, by decide, rfl⟩

/-- C7: `Update(t).Set(age, age.Increment(1)).Where(id.Eq(1))` renders
exactly ``UPDATE `t` SET `age`=`t`.`age`+? WHERE `t`.`id` = ?`` with the
argument list `[1, 1]`, the increment delta before the condition value
(sql/update.go:34-99 with fieldOperation.ToExpressionSQL,
part_013:114-116). -/
theorem C7_update_increment :
    (((Update "t").set "age" (Int64Field.increment ⟨"age", "t"⟩ 1)).whereC
        [Int64Field.eq ⟨"id", "t"⟩ 1]).sql
      = .ok ("UPDATE `t` SET `age`=`t`.`age`+? WHERE `t`.`id` = ?",
             [.vInt 1, .vInt 1]) := rfl

/-- C3: a Set call on the insert builder whose value expression fails to
render stages the wrapped error immediately; every later Set call returns
the builder unchanged, and SQL() returns exactly the staged error — for
every builder state, so in particular before the missing-table and
empty-set-list checks ever fire (part_006:28-56). -/
theorem C3_insert_staged_error (b : InsertIntoBuilder) (n : String)
    (v : SqlExpr) (msg : String) (hb : b.err = none)
    (hv : toSQL v = .error msg) :
    (b.set n v).err = some ("SET field '" ++ n ++ "': " ++ msg) ∧
    (∀ n2 v2, ((b.set n v).set n2 v2) = b.set n v) ∧
    (b.set n v).sql = .error ("SET field '" ++ n ++ "': " ++ msg) := by
  have h1 : b.set n v = { b with err := some ("SET field '" ++ n ++ "': " ++ msg) } := by
    unfold InsertIntoBuilder.set
    rw [hb, hv]
  exact ⟨by rw [h1], fun n2 v2 => by rw [h1]; rfl, by rw [h1]; rfl⟩

/-- Witness for C3: a failing Set on a fresh builder with an empty table
name — the staged error still wins over the missing-table check. -/
theorem C3_insert_staged_error_witness :
    ((InsertInto "").set "name" (.failing "boom")).sql
      = .error ("SET field 'name': boom") :=
  (C3_insert_staged_error (InsertInto "") "name" (.failing "boom") "boom"
    rfl rfl).2.2

/-- C9: Contains/StartsWith/EndsWith on a string field return a no-op
(empty fragment, zero args) for the empty string, and for a non-empty
value render `<field> LIKE ?` with the single argument wrapped in the
corresponding wildcards `%v%`, `v%`, `%v` (part_009:164-194,
field/string.go:124-154). -/
theorem C9_like_wildcards (f : StringField) (v : String) (hv : v ≠ "") :
    (f.containsV "" = .noOp ∧ f.startsWithV "" = .noOp ∧
      f.endsWithV "" = .noOp ∧ toSQL .noOp = .ok ("", [])) ∧
    toSQL (f.containsV v)
      = .ok ("`" ++ f.tableName ++ "`.`" ++ f.fieldName ++ "`" ++ " LIKE ?",
             [.vStr ("%" ++ v ++ "%")]) ∧
    toSQL (f.startsWithV v)
      = .ok ("`" ++ f.tableName ++ "`.`" ++ f.fieldName ++ "`" ++ " LIKE ?",
             [.vStr (v ++ "%")]) ∧
    toSQL (f.endsWithV v)
      = .ok ("`" ++ f.tableName ++ "`.`" ++ f.fieldName ++ "`" ++ " LIKE ?",
             [.vStr ("%" ++ v)]) := by
  refine ⟨⟨rfl, rfl, rfl, rfl⟩, ?_, ?_, ?_⟩
  · rw [StringField.containsV, if_neg hv]; rfl
  · rw [StringField.startsWithV, if_neg hv]; rfl
  · rw [StringField.endsWithV, if_neg hv]; rfl

/-- Witness for C9 at the `users.name` field and the value `"Jo"`. -/
theorem C9_like_wildcards_witness :
    toSQL (StringField.containsV ⟨"name", "users"⟩ "Jo")
      = .ok ("`" ++ "users" ++ "`.`" ++ "name" ++ "`" ++ " LIKE ?",
             [.vStr ("%" ++ "Jo" ++ "%")]) :=
  (C9_like_wildcards ⟨"name", "users"⟩ "Jo" (by decide)).2.1

/-- The float column renders through the empty-table-name branch of
Float64Field.ToSQL (part_011:22-28), with no args of its own. -/
theorem toSQL_float64Field (g : Float64Field) :
    toSQL (.float64Field g.tableName g.fieldName) = .ok (g.fieldSQL, []) := by
  by_cases ht : g.tableName = "" <;>
    simp [toSQL, Float64Field.fieldSQL, ht]

/-- C8: the IN condition renders `<field> IN (?, ?, …)` with one
placeholder and one argument per value; with zero values the strict In
variant panics (modelled as `none`, part_009:134-137 and part_011:148-151)
while InOrEmpty returns a no-op expression (part_009:148-153,
part_011:162-167). The string column always renders table-qualified
(part_009:20-22); the float column drops the qualifier when its table
name is empty (part_011:22-28, `Float64Field.fieldSQL`). The `hq`/`hqg`
hypotheses record that the column reference itself contains no `?`. -/
theorem C8_in_variants (f : StringField) (g : Float64Field)
    (values : List String) (gvalues : List Nat)
    (hv : values ≠ []) (hg : gvalues ≠ [])
    (hq : countQ ("`" ++ f.tableName ++ "`.`" ++ f.fieldName ++ "`") = 0)
    (hqg : countQ g.fieldSQL = 0) :
    (f.inStrict [] = none ∧ g.inStrict [] = none) ∧
    (f.inOrEmpty [] = some .noOp ∧ g.inOrEmpty [] = some .noOp ∧
      toSQL .noOp = .ok ("", [])) ∧
    (∃ frag, f.inStrict values = some (.inCond (.strField f.tableName f.fieldName)
          (values.map Val.vStr)) ∧
      toSQL (.inCond (.strField f.tableName f.fieldName) (values.map Val.vStr))
        = .ok (frag, values.map Val.vStr) ∧
      frag = "`" ++ f.tableName ++ "`.`" ++ f.fieldName ++ "`" ++
        (" IN (" ++ (String.intercalate ", " (List.replicate values.length "?") ++ ")")) ∧
      countQ frag = values.length ∧
      (values.map Val.vStr).length = values.length) ∧
    (∃ frag, g.inStrict gvalues = some (.inCond (.float64Field g.tableName g.fieldName)
          (gvalues.map Val.vFloat)) ∧
      toSQL (.inCond (.float64Field g.tableName g.fieldName) (gvalues.map Val.vFloat))
        = .ok (frag, gvalues.map Val.vFloat) ∧
      frag = g.fieldSQL ++
        (" IN (" ++ (String.intercalate ", " (List.replicate gvalues.length "?") ++ ")")) ∧
      countQ frag = gvalues.length ∧
      (gvalues.map Val.vFloat).length = gvalues.length) := by
  refine ⟨⟨rfl, rfl⟩, ⟨rfl, rfl, rfl⟩, ?_, ?_⟩
  · obtain ⟨a, as, rfl⟩ := List.exists_cons_of_ne_nil hv
    refine ⟨_, ?_, ?_, rfl, ?_, by simp⟩
    · rw [StringField.inStrict, if_neg (by simp)]
    · show toSQL (.inCond _ ((a :: as).map Val.vStr)) = _
      rw [toSQL, if_neg (by simp)]
      simp [toSQL, exc_bind_ok, String.append_assoc]
    · simp only [List.length_cons]
      rw [countQ_append, hq, countQ_append, countQ_append,
        countQ_in_placeholders as.length]
      simp [countQ]
  · obtain ⟨a, as, rfl⟩ := List.exists_cons_of_ne_nil hg
    refine ⟨_, ?_, ?_, rfl, ?_, by simp⟩
    · rw [Float64Field.inStrict, if_neg (by simp)]
    · show toSQL (.inCond _ ((a :: as).map Val.vFloat)) = _
      rw [toSQL, if_neg (by simp), toSQL_float64Field, exc_bind_ok]
      simp [String.append_assoc]
    · simp only [List.length_cons]
      rw [countQ_append, hqg, countQ_append, countQ_append,
        countQ_in_placeholders as.length]
      simp [countQ]

/-- Witness for C8: users.name IN ("a", "b"); a float price column with
an EMPTY table name, whose IN fragment starts with the unqualified
`` `price` ``; and the strict float In panicking on zero values. -/
theorem C8_in_variants_witness :
    toSQL (.inCond (.strField "users" "name") (["a", "b"].map Val.vStr))
      = .ok ("`" ++ "users" ++ "`.`" ++ "name" ++ "`" ++
          (" IN (" ++ (String.intercalate ", " (List.replicate 2 "?") ++ ")")),
        ["a", "b"].map Val.vStr) ∧
    toSQL (.inCond (.float64Field "" "price") ([3].map Val.vFloat))
      = .ok (Float64Field.fieldSQL ⟨"price", ""⟩ ++
          (" IN (" ++ (String.intercalate ", " (List.replicate 1 "?") ++ ")")),
        [3].map Val.vFloat) ∧
    Float64Field.fieldSQL ⟨"price", ""⟩ = "`" ++ "price" ++ "`" ∧
    Float64Field.inStrict ⟨"price", ""⟩ [] = none := by
  obtain ⟨frag, _, h2, h3, _, _⟩ :=
    (C8_in_variants ⟨"name", "users"⟩ ⟨"price", ""⟩ ["a", "b"] [3]
      (by decide) (by decide) (by decide) (by decide)).2.2.1
  obtain ⟨gfrag, _, g2, g3, _, _⟩ :=
    (C8_in_variants ⟨"name", "users"⟩ ⟨"price", ""⟩ ["a", "b"] [3]
      (by decide) (by decide) (by decide) (by decide)).2.2.2
  exact ⟨h3 ▸ h2, g3 ▸ g2, by decide, rfl⟩

/-- C2: and()/or() drop the sub-expressions that render empty; zero kept
renders as a no-op (empty fragment, no args), exactly one kept renders
verbatim without wrapping parentheses, and two or more render
parenthesized and joined by " AND "/" OR " with the kept args concatenated
in source order (joinCodnitions, field/field.go:137-164). The list `rs`
is the sub-expressions' render output. -/
theorem C2_and_or_filtering (cs : List SqlExpr) (rs : List Rendered)
    (h : renderAll cs = .ok rs) :
    (((rs.filter fun r => r.1 ≠ "") = []) →
        toSQL (.andE cs) = .ok ("", []) ∧ toSQL (.orE cs) = .ok ("", [])) ∧
    (∀ s ps, (rs.filter fun r => r.1 ≠ "") = [(s, ps)] →
        toSQL (.andE cs) = .ok (s, ps) ∧ toSQL (.orE cs) = .ok (s, ps)) ∧
    (∀ r1 r2 rest, (rs.filter fun r => r.1 ≠ "") = r1 :: r2 :: rest →
        (toSQL (.andE cs)
          = .ok ("(" ++ String.intercalate " AND " ((r1 :: r2 :: rest).map Prod.fst) ++ ")",
                 ((r1 :: r2 :: rest).map Prod.snd).flatten)) ∧
        (toSQL (.orE cs)
          = .ok ("(" ++ String.intercalate " OR " ((r1 :: r2 :: rest).map Prod.fst) ++ ")",
                 ((r1 :: r2 :: rest).map Prod.snd).flatten))) := by
  have hand : toSQL (.andE cs) = .ok (joinCodnitions rs "AND") := by
    rw [toSQL, h, exc_bind_ok]
  have hor : toSQL (.orE cs) = .ok (joinCodnitions rs "OR") := by
    rw [toSQL, h, exc_bind_ok]
  refine ⟨fun hf => ?_, fun s ps hf => ?_, fun r1 r2 rest hf => ?_⟩
  · rw [hand, hor]
    unfold joinCodnitions
    rw [hf]
    exact ⟨rfl, rfl⟩
  · rw [hand, hor]
    unfold joinCodnitions
    rw [hf]
    simp
  · rw [hand, hor]
    unfold joinCodnitions
    rw [hf]
    exact ⟨rfl, rfl⟩

/-- Witness for C2: a no-op between two argument-carrying conditions is
dropped and the remaining two are parenthesized and AND-joined. -/
theorem C2_and_or_filtering_witness :
    toSQL (.andE [.noOp, .raw "a=?" [.vInt 1], .raw "b=?" [.vInt 2]])
      = .ok ("(" ++ String.intercalate " AND "
              ([(("a=?", [Val.vInt 1])), (("b=?", [Val.vInt 2]))].map Prod.fst) ++ ")",
             ([(("a=?", [Val.vInt 1])), (("b=?", [Val.vInt 2]))].map Prod.snd).flatten) :=
  ((C2_and_or_filtering [.noOp, .raw "a=?" [.vInt 1], .raw "b=?" [.vInt 2]]
      [("", []), ("a=?", [Val.vInt 1]), ("b=?", [Val.vInt 2])] rfl).2.2
    ("a=?", [Val.vInt 1]) ("b=?", [Val.vInt 2]) [] (by decide)).1

/-- Trailing part of an index-based " AND " join: every entry contributes
its separator and fragment, even when the fragment is empty. Stated from
the spec side for comparison with the Delete builder's WHERE loop. -/
def sepAndAll : List String → String
  | [] => ""
  | s :: rest => " AND " ++ s ++ sepAndAll rest

/-- Index-based " AND " join of all fragments, empty ones included: the
first entry carries no separator, each later entry carries one whether or
not its fragment is empty. -/
def indexJoinAnd : List String → String
  | [] => ""
  | s :: rest => s ++ sepAndAll rest

theorem deleteWhereAux_fst_succ : ∀ (rs : List Rendered) (i : Nat),
    (deleteWhereAux (i + 1) rs).1 = sepAndAll (rs.map Prod.fst) := by
  intro rs
  induction rs with
  | nil => intro i; rfl
  | cons r rest ih =>
      intro i
      obtain ⟨s, ps⟩ := r
      by_cases hs : s = ""
      · subst hs
        simp [deleteWhereAux, sepAndAll, ih]
      · simp [deleteWhereAux, sepAndAll, hs, ih]

/-- The Delete WHERE loop's fragment is the index-joined concatenation of
ALL condition fragments — a skipped no-op still leaves its separator. -/
theorem deleteWhereAux_fst_zero (rs : List Rendered) :
    (deleteWhereAux 0 rs).1 = indexJoinAnd (rs.map Prod.fst) := by
  cases rs with
  | nil => rfl
  | cons r rest =>
      obtain ⟨s, ps⟩ := r
      by_cases hs : s = ""
      · subst hs
        simp [deleteWhereAux, indexJoinAnd, deleteWhereAux_fst_succ]
      · simp [deleteWhereAux, indexJoinAnd, hs, deleteWhereAux_fst_succ]

/-- The Delete WHERE loop's args come from the non-empty entries only, in
source order. -/
theorem deleteWhereAux_snd : ∀ (rs : List Rendered) (i : Nat),
    (deleteWhereAux i rs).2 = ((rs.filter fun r => r.1 ≠ "").map Prod.snd).flatten := by
  intro rs
  induction rs with
  | nil => intro i; rfl
  | cons r rest ih =>
      intro i
      obtain ⟨s, ps⟩ := r
      by_cases hs : s = ""
      · subst hs
        simp [deleteWhereAux, ih]
      · simp [deleteWhereAux, hs, ih]

/-- The and() combinator's args are likewise the non-empty entries' args
in source order. -/
theorem joinCodnitions_snd (rs : List Rendered) (op : String) :
    (joinCodnitions rs op).2 = ((rs.filter fun r => r.1 ≠ "").map Prod.snd).flatten := by
  simp only [joinCodnitions]
  split
  · next heq =>
      rw [List.map_eq_nil_iff.mp heq]
      rfl
  · rfl
  · rfl

/-- Counterexample to C5: for the condition list `[noOp, id.Eq(1)]` on
table `t` the Delete builder renders ``DELETE FROM `t` WHERE  AND
`t`.`id` = ?`` — the separator is written by entry index before the
empty-fragment check (part_003:56-67) — while AND-joining the same list
through the shared and() combinator yields the fragment ``
`t`.`id` = ? `` and hence the text ``DELETE FROM `t` WHERE `t`.`id` = ?``;
the two texts differ, refuting the claimed equality. -/
theorem C5_counterexample :
    ((DeleteFrom "t").whereC [.noOp, Int64Field.eq ⟨"id", "t"⟩ 1]).sql
      = .ok ("DELETE FROM `t` WHERE  AND `t`.`id` = ?", [.vInt 1]) ∧
    toSQL (.andE [.noOp, Int64Field.eq ⟨"id", "t"⟩ 1])
      = .ok ("`t`.`id` = ?", [.vInt 1]) ∧
    ("DELETE FROM `t` WHERE  AND `t`.`id` = ?"
        ≠ "DELETE FROM `t` WHERE " ++ "`t`.`id` = ?") :=
  ⟨rfl, rfl, by decide⟩

/-- C5 (amended): for every successfully rendering condition list, the
Delete builder and the shared and() combinator produce the SAME argument
list (the non-empty entries' args in source order), but the Delete WHERE
text is the index-joined concatenation of all fragments — each entry
past the first contributes a `" AND "` separator even when its fragment
is empty, and no wrapping parentheses are added — rather than and()'s
no-op-filtered, parenthesizing join. -/
theorem C5_delete_vs_and (tn : String) (cs : List SqlExpr) (rs : List Rendered)
    (htn : tn ≠ "") (hcs : cs ≠ []) (h : renderAll cs = .ok rs) :
    ∃ args,
      ((DeleteFrom tn).whereC cs).sql
        = .ok ("DELETE FROM `" ++ tn ++ "`" ++
            (" WHERE " ++ indexJoinAnd (rs.map Prod.fst)), args) ∧
      toSQL (.andE cs) = .ok ((joinCodnitions rs "AND").1, args) := by
  refine ⟨((rs.filter fun r => r.1 ≠ "").map Prod.snd).flatten, ?_, ?_⟩
  · simp only [DeleteBuilder.sql, DeleteBuilder.whereC, DeleteFrom, List.nil_append]
    rw [if_neg htn, h]
    have hlen : cs.length > 0 := List.length_pos.mpr hcs
    simp only [if_pos hlen, deleteWhereAux_fst_zero, deleteWhereAux_snd]
    simp
  · rw [toSQL, h, exc_bind_ok, ← joinCodnitions_snd rs "AND", Prod.mk.eta]

/-- Witness for C5's amended statement at `[noOp, a=?]` on table `t`. -/
theorem C5_delete_vs_and_witness :
    ∃ args,
      ((DeleteFrom "t").whereC [.noOp, .raw "a=?" [.vInt 1]]).sql
        = .ok ("DELETE FROM `" ++ "t" ++ "`" ++
            (" WHERE " ++ indexJoinAnd
              (([("", ([] : List Val)), ("a=?", [Val.vInt 1])]).map Prod.fst)), args) ∧
      toSQL (.andE [.noOp, .raw "a=?" [.vInt 1]])
        = .ok ((joinCodnitions [("", []), ("a=?", [Val.vInt 1])] "AND").1, args) :=
  C5_delete_vs_and "t" [.noOp, .raw "a=?" [.vInt 1]]
    [("", []), ("a=?", [Val.vInt 1])] (by decide) (List.cons_ne_nil _ _) rfl

/-- Counterexample to C4: a model with exported fields `Name` and `Age`
against an optional type carrying only `Name` passes validateOptionalType
(part_016:1493-1557), although the claim demands rejection whenever some
exported field of T has no counterpart in P — the loop iterates the
optional type's fields only and never checks the reverse direction. -/
theorem C4_counterexample :
    validateOptionalType
        [⟨"Name", .tString, true⟩, ⟨"Age", .tInt64, true⟩]
        [⟨"Name", .ptr .tString, true⟩] = .ok () ∧
    (∃ mf ∈ ([⟨"Name", .tString, true⟩, ⟨"Age", .tInt64, true⟩] : List GoStructField),
      mf.exported = true ∧
      ∀ pf ∈ ([⟨"Name", .ptr .tString, true⟩] : List GoStructField),
        pf.name ≠ mf.name) := by
  exact ⟨rfl, by decide⟩

/-- C4 (amended): validateOptionalType checks the P→T direction only —
it accepts exactly when every exported field of P passes the
CreateTime/UpdateTime pointer-to-time check, exists among T's exported
fields by name, and is a pointer whose element type equals the T field's
type exactly; an exported field of T missing from P is never rejected
(part_016:1493-1557). -/
theorem C4_optional_mirror (modelFields optFields : List GoStructField) :
    validateOptionalType modelFields optFields = .ok ()
      ↔ ∀ f ∈ optFields, f.exported = true →
          optTimeCheck f = none ∧
          ∃ mf, lookupModelField modelFields f.name = some mf ∧ f.ty = .ptr mf.ty := by
  unfold validateOptionalType
  induction optFields with
  | nil => simp [validateOptFields]
  | cons f rest ih =>
      by_cases hex : f.exported
      · cases htc : optTimeCheck f with
        | some e =>
            simp [validateOptFields, hex, htc]
        | none =>
            cases hlk : lookupModelField modelFields f.name with
            | none =>
                simp [validateOptFields, hex, htc, hlk]
            | some mf =>
                cases hty : f.ty with
                | ptr inner =>
                    by_cases hin : inner = mf.ty
                    · subst hin
                      simp [validateOptFields, hex, htc, hlk, hty, ih]
                    · simp [validateOptFields, hex, htc, hlk, hty, hin]
                | tString => simp [validateOptFields, hex, htc, hlk, hty]
                | tInt64 => simp [validateOptFields, hex, htc, hlk, hty]
                | tInt32 => simp [validateOptFields, hex, htc, hlk, hty]
                | tFloat64 => simp [validateOptFields, hex, htc, hlk, hty]
                | tBool => simp [validateOptFields, hex, htc, hlk, hty]
                | tTime => simp [validateOptFields, hex, htc, hlk, hty]
      · simp [validateOptFields, hex, ih]

/-- Witness for C4's amended characterization: a 1:1 pointer mirror is
accepted, derived through the characterization itself. -/
theorem C4_optional_mirror_witness :
    validateOptionalType
        [⟨"Name", .tString, true⟩, ⟨"UpdateTime", .tTime, true⟩]
        [⟨"Name", .ptr .tString, true⟩, ⟨"UpdateTime", .ptr .tTime, true⟩]
      = .ok () :=
  (C4_optional_mirror
      [⟨"Name", .tString, true⟩, ⟨"UpdateTime", .tTime, true⟩]
      [⟨"Name", .ptr .tString, true⟩, ⟨"UpdateTime", .ptr .tTime, true⟩]).mpr
    (by decide)

/-- The builder stage never produces the "nothing to update" error: its
only returned error is the wrapped build failure. -/
theorem run_ne_nothing (tn : String) (sets : List (String × Expression))
    (conds : List SqlExpr) :
    runUpdateBuilder tn sets conds ≠ .errOut ("nothing to update") := by
  unfold runUpdateBuilder
  cases hsql : (((Update tn).setMany sets).whereC conds).sql with
  | ok r =>
      obtain ⟨q, args⟩ := r
      simp
  | error e =>
      simp only []
      intro hcon
      have hmsg := UpdateOutcome.errOut.inj hcon
      have hlen := congrArg String.length hmsg
      rw [String.length_append] at hlen
      have h1 : ("failed to build update SQL: ").length = 28 := rfl
      have h2 : ("nothing to update").length = 17 := rfl
      omega

/-- Counterexample to C6: a partial object whose fields are all nil but
which carries an `UpdateTime` field, against a table that has
`update_time`, fails with "nothing to update" (zero engine calls) — yet
the claim says the failure occurs exactly when no fields were collected
AFTER the auto-fill, and the auto-fill would have included `update_time`
here. The check on orm/update.go:156 runs before the auto-fill on
line 161. -/
theorem C6_counterexample :
    ormUpdate "t" ["id", "name", "update_time"] [Int64Field.eq ⟨"id", ""⟩ 1]
        (some [⟨"Name", none⟩, ⟨"UpdateTime", none⟩]) (.vTime 5)
      = .errOut ("nothing to update") ∧
    (([⟨"Name", none⟩, ⟨"UpdateTime", none⟩] : List OptField).any
        fun f => f.goName == "UpdateTime" && f.value.isNone) = true ∧
    (["id", "name", "update_time"].contains "update_time") = true := by
  exact ⟨rfl, by decide, by decide⟩

/-- C6 (amended): UpdateByID/UpdateBy skip every nil field and convert
each non-nil one, but the "nothing to update" check runs BEFORE the
UpdateTime auto-fill and counts only the fields collected from the
partial object: the operation fails — issuing zero engine calls —
exactly when that collection is empty, even if a nil UpdateTime field
exists; when the collection is non-empty and UpdateTime was left nil,
`update_time = now` is appended as the last SET entry
(orm/update.go:49-181). -/
theorem C6_nothing_to_update_order (tn : String) (tf : List String)
    (conds : List SqlExpr) (fields : List OptField) (now : Val)
    (hconds : conds ≠ []) :
    (ormUpdate tn tf conds (some fields) now = .errOut ("nothing to update")
        ↔ collectUpdates tf fields = []) ∧
    (collectUpdates tf fields ≠ [] →
      (fields.any fun f => f.goName == "UpdateTime" && f.value.isNone) = true →
      tf.contains "update_time" = true →
      ormUpdate tn tf conds (some fields) now
        = runUpdateBuilder tn
            (collectUpdates tf fields ++ [("update_time", Expression.litE now)]) conds) := by
  obtain ⟨c, cr, rfl⟩ := List.exists_cons_of_ne_nil hconds
  by_cases hC : collectUpdates tf fields = []
  · constructor
    · simp [ormUpdate, hC]
    · intro hC2
      exact absurd hC hC2
  · have hCe : (collectUpdates tf fields).isEmpty = false := by
      cases hcc : collectUpdates tf fields with
      | nil => exact absurd hcc hC
      | cons x xs => rfl
    constructor
    · constructor
      · intro heq
        exfalso
        by_cases hsa : (fields.any fun f => f.goName == "UpdateTime" && f.value.isNone) = true
        · have hut : (fields.any fun f => f.goName == "UpdateTime") = true := by
            rw [List.any_eq_true] at hsa ⊢
            obtain ⟨f, hf, hp⟩ := hsa
            simp only [Bool.and_eq_true] at hp
            exact ⟨f, hf, hp.1⟩
          by_cases hct : tf.contains "update_time" = true
          · have hmem : "update_time" ∈ tf := by simpa using hct
            rw [ormUpdate] at heq
            simp [hCe, hut, hsa, hmem] at heq
            exact run_ne_nothing _ _ _ heq
          · have hmem : "update_time" ∉ tf := by simpa using hct
            rw [ormUpdate] at heq
            simp [hCe, hut, hsa, hmem] at heq
        · rw [ormUpdate] at heq
          simp [hCe, Bool.and_eq_true, hsa] at heq
          exact run_ne_nothing _ _ _ heq
      · intro heq
        exact absurd heq hC
    · intro _ hsa hct
      have hut : (fields.any fun f => f.goName == "UpdateTime") = true := by
        rw [List.any_eq_true] at hsa ⊢
        obtain ⟨f, hf, hp⟩ := hsa
        simp only [Bool.and_eq_true] at hp
        exact ⟨f, hf, hp.1⟩
      have hmem : "update_time" ∈ tf := by simpa using hct
      rw [ormUpdate]
      simp [hCe, hut, hsa, hmem]

/-- Witness for C6's amended statement: one non-nil field plus a nil
UpdateTime — the auto-filled `update_time` is appended after the
collected field. -/
theorem C6_nothing_to_update_order_witness :
    ormUpdate "t" ["id", "name", "update_time"] [Int64Field.eq ⟨"id", ""⟩ 1]
        (some [⟨"Name", some (.vStr "x")⟩, ⟨"UpdateTime", none⟩]) (.vTime 5)
      = runUpdateBuilder "t"
          (collectUpdates ["id", "name", "update_time"]
              [⟨"Name", some (.vStr "x")⟩, ⟨"UpdateTime", none⟩]
            ++ [("update_time", Expression.litE (.vTime 5))])
          [Int64Field.eq ⟨"id", ""⟩ 1] :=
  (C6_nothing_to_update_order "t" ["id", "name", "update_time"]
      [Int64Field.eq ⟨"id", ""⟩ 1]
      [⟨"Name", some (.vStr "x")⟩, ⟨"UpdateTime", none⟩] (.vTime 5)
      (List.cons_ne_nil _ _)).2 (by decide) (by decide) (by decide)

/-- C10: GetByID, UpdateByID and DeleteByID called with id 0 return the
wrapped "requires id, got 0" error before any engine call; with a
non-zero id they also error when the table has no `id` field; and a
non-zero id on an id-bearing table always produces the equality condition
built from `Int64Field{FieldName: "id"}` — whose empty table name makes
it render as the unqualified `` `id` = ? `` with the id as sole argument
(orm/condition.go:49-70, orm/update.go:27-34, orm/query.go:28-34,
part_018:12-19). -/
theorem C10_by_id_guards (tn : String) (tf : List String) (id : Int)
    (data : Option (List OptField)) (now : Val)
    (hid : id ≠ 0) (hhas : tf.contains "id" = true) :
    (toIDCondition tf 0 = .error ("requires id, got 0") ∧
      GetByID tf 0
        = .error ("failed to convert id to condition: " ++ "requires id, got 0") ∧
      UpdateByID tn tf 0 data now
        = .errOut ("failed to convert id to condition: " ++ "requires id, got 0") ∧
      DeleteByID tn tf 0
        = .error ("failed to convert id to condition: " ++ "requires id, got 0")) ∧
    (∀ tf2 : List String, tf2.contains "id" = false →
      toIDCondition tf2 id = .error ("missing id field")) ∧
    (toIDCondition tf id = .ok (Int64Field.eq ⟨"id", ""⟩ id) ∧
      toSQL (Int64Field.eq ⟨"id", ""⟩ id) = .ok ("`id` = ?", [.vInt id])) := by
  refine ⟨⟨rfl, rfl, rfl, rfl⟩, ?_, ?_, rfl⟩
  · intro tf2 h2
    have hmem : "id" ∉ tf2 := by simpa using h2
    simp [toIDCondition, hid, hmem]
  · have hmem : "id" ∈ tf := by simpa using hhas
    simp [toIDCondition, hid, hmem]

/-- Witness for C10 at id 42 on a table with fields id and name. -/
theorem C10_by_id_guards_witness :
    toIDCondition ["id", "name"] 42 = .ok (Int64Field.eq ⟨"id", ""⟩ 42) ∧
    toSQL (Int64Field.eq ⟨"id", ""⟩ 42) = .ok ("`id` = ?", [.vInt 42]) :=
  (C10_by_id_guards "t" ["id", "name"] 42 none (.vTime 0)
    (by decide) (by decide)).2.2

end ArcOrm
